import Mathlib

/-!
# diff-sounds: verification of the event-debouncing / audio-state-machine core

A shallow embedding of the VibeKits/diff-sounds extension: the configuration
record and its reader (`getVSCodeConfig`), the attribution gate
(`AttributionService.shouldPlaySound`), the sound-player commands
(`DiffSoundPlayer.playAdd` and friends, modelled as the list of play/stop
messages posted to the audio backend), and the orchestrator in
`extension.ts` (text-change handler with its debounce timer, tab-change
handler with the open-diff-tab counter, config-change suppression, and the
enable/disable commands), given an explicit single-timeline timed semantics.
-/

namespace DiffSounds

/-- Attribution modes of the extension (`types.ts` / settings enum). -/
inductive AttributionMode
  | anyMode
  | liveOnly
  | gitOnly
deriving DecidableEq, Repr

/-- One per-role sound record (`SoundEntry` in `types.ts`): enabled flag,
optional volume override, resolved filename and a defaults-origin marker. -/
structure SoundEntry where
  enabled : Bool
  volume : Option Nat := none
  filename : Option String := none
  isDefault : Bool := false
deriving DecidableEq, Repr

/-- The full configuration record (`DiffSoundsConfig` in `types.ts`). -/
structure DiffSoundsConfig where
  enabled : Bool
  attributionMode : AttributionMode
  authorName : String
  addSound : SoundEntry
  removeSound : SoundEntry
  diffOpenSound : SoundEntry
  diffActiveSound : SoundEntry
  diffCloseSound : SoundEntry
  volume : Nat
  debounceMs : Nat
deriving DecidableEq, Repr

/-- JavaScript `x || d` on an optional numeric setting: `undefined` and `0`
are both falsy, so either falls back to the default. -/
def jsOrOpt (v : Option Nat) (d : Nat) : Nat :=
  match v with
  | none => d
  | some n => if n = 0 then d else n

/-- JavaScript `x || d` on a present numeric setting: `0` is falsy. -/
def jsOrNat (v d : Nat) : Nat :=
  if v = 0 then d else v

/-- Effective linear volume as computed inside the `play*` methods of
`DiffSoundPlayer`: `(role.volume || roleDefault) / 100 * ((master || 100) / 100)`. -/
def effVol (roleVol : Option Nat) (roleDefault master : Nat) : Rat :=
  ((jsOrOpt roleVol roleDefault : Rat) / 100) * ((jsOrNat master 100 : Rat) / 100)

/-! ## The settings store and `getVSCodeConfig` -/

/-- The persisted settings surface: each recognized `diffSounds.*` key is
either absent or holds a stored value. -/
structure SettingsStore where
  enabled : Option Bool := none
  attributionMode : Option AttributionMode := none
  authorName : Option String := none
  addSoundEnabled : Option Bool := none
  addSoundVolume : Option Nat := none
  removeSoundEnabled : Option Bool := none
  removeSoundVolume : Option Nat := none
  diffOpenSoundEnabled : Option Bool := none
  diffOpenSoundVolume : Option Nat := none
  diffActiveSoundEnabled : Option Bool := none
  diffActiveSoundVolume : Option Nat := none
  diffCloseSoundEnabled : Option Bool := none
  diffCloseSoundVolume : Option Nat := none
  volume : Option Nat := none
  debounceMs : Option Nat := none
deriving DecidableEq, Repr

/-- `getVSCodeConfig` in `extension.ts`: reads each key with its default.
The source populates `removeSound.enabled` from a read of the
`addSound.enabled` key (line 346), and that read is reproduced here. -/
def getVSCodeConfig (s : SettingsStore) : DiffSoundsConfig :=
  { enabled := s.enabled.getD true
    attributionMode := s.attributionMode.getD .anyMode
    authorName := s.authorName.getD "Cline"
    addSound := { enabled := s.addSoundEnabled.getD true, volume := some (s.addSoundVolume.getD 50) }
    removeSound := { enabled := s.addSoundEnabled.getD true, volume := some (s.removeSoundVolume.getD 50) }
    diffOpenSound := { enabled := s.diffOpenSoundEnabled.getD true, volume := some (s.diffOpenSoundVolume.getD 100) }
    diffActiveSound := { enabled := s.diffActiveSoundEnabled.getD true, volume := some (s.diffActiveSoundVolume.getD 100) }
    diffCloseSound := { enabled := s.diffCloseSoundEnabled.getD true, volume := some (s.diffCloseSoundVolume.getD 100) }
    volume := s.volume.getD 100
    debounceMs := s.debounceMs.getD 1 }

/-! ## AttributionService -/

/-- A Live Share participant as inspected by `checkLiveAttribution`. -/
structure Participant where
  displayName : Option String := none
  userName : Option String := none
deriving DecidableEq, Repr

/-- Environment seen by `checkLiveAttribution`: `none` when the Live Share
API is unavailable, `some none` when there is no active session, and
`some (some ps)` for a session with participant list `ps`; `lookupThrows`
models the `try`/`catch` around the participant inspection. -/
structure LiveEnv where
  api : Option (Option (List Participant)) := none
  lookupThrows : Bool := false
deriving DecidableEq, Repr

/-- Environment seen by `checkGitAttribution`. -/
structure GitEnv where
  extensionActive : Bool := false
  apiThrows : Bool := false
  repoFound : Bool := false
deriving DecidableEq, Repr

/-- `AttributionService.checkLiveAttribution`. -/
def checkLiveAttribution (env : LiveEnv) (authorName : String) : Bool :=
  match env.api with
  | none => false
  | some none => false
  | some (some ps) =>
    if env.lookupThrows then false
    else ps.any (fun p => p.displayName == some authorName || p.userName == some authorName)

/-- `AttributionService.checkGitAttribution`: every branch, including the
repo-found one, returns `false` (the lookup is an unimplemented MVP stub). -/
def checkGitAttribution (env : GitEnv) (documentUri : Option String) : Bool :=
  match documentUri with
  | none => false
  | some _ =>
    if !env.extensionActive then false
    else if env.apiThrows then false
    else if !env.repoFound then false
    else false

/-- External attribution environment. -/
structure AttributionEnv where
  live : LiveEnv := {}
  git : GitEnv := {}
deriving DecidableEq, Repr

/-- `AttributionService.shouldPlaySound`. -/
def shouldPlaySound (env : AttributionEnv) (config : DiffSoundsConfig)
    (documentUri : Option String) : Bool :=
  if !config.enabled then false
  else
    match config.attributionMode with
    | .anyMode => true
    | .liveOnly => checkLiveAttribution env.live config.authorName
    | .gitOnly => checkGitAttribution env.git documentUri

/-! ## DiffSoundPlayer: play/stop commands posted to the audio backend -/

/-- A command posted to the audio webview: `playAudio` (with linear volume
and loop option) or `stopAudio`. -/
inductive Cmd
  | play (sound : String) (volume : Rat) (loop : Bool)
  | stop (sound : String)
deriving DecidableEq, Repr

/-- Resolved sound file paths held by `DiffSoundPlayer` (empty string means
no path resolved for the role). -/
structure Paths where
  addSoundPath : String := ""
  removeSoundPath : String := ""
  diffOpenSoundPath : String := ""
  diffActiveSoundPath : String := ""
  diffCloseSoundPath : String := ""
deriving DecidableEq, Repr

/-- `DiffSoundPlayer.playAdd`: guarded by path and role-enabled; role
default volume 50. -/
def playAdd (p : Paths) (config : DiffSoundsConfig) : List Cmd :=
  if p.addSoundPath = "" ∨ config.addSound.enabled = false then []
  else [Cmd.play "add" (effVol config.addSound.volume 50 config.volume) false]

/-- `DiffSoundPlayer.playRemove`: role default volume 50. -/
def playRemove (p : Paths) (config : DiffSoundsConfig) : List Cmd :=
  if p.removeSoundPath = "" ∨ config.removeSound.enabled = false then []
  else [Cmd.play "remove" (effVol config.removeSound.volume 50 config.volume) false]

/-- `DiffSoundPlayer.playDiffOpen`: role default volume 50 (the source uses
`config.diffOpenSound.volume || 50`). -/
def playDiffOpen (p : Paths) (config : DiffSoundsConfig) : List Cmd :=
  if p.diffOpenSoundPath = "" ∨ config.diffOpenSound.enabled = false then []
  else [Cmd.play "diffopen" (effVol config.diffOpenSound.volume 50 config.volume) false]

/-- `DiffSoundPlayer.playDiffActive`: looped playback, role default 100. -/
def playDiffActive (p : Paths) (config : DiffSoundsConfig) : List Cmd :=
  if p.diffActiveSoundPath = "" ∨ config.diffActiveSound.enabled = false then []
  else [Cmd.play "diffactive" (effVol config.diffActiveSound.volume 100 config.volume) true]

/-- `DiffSoundPlayer.playDiffClose`: stops the `diffactive` loop first, then
plays the close cue (role default 100). -/
def playDiffClose (p : Paths) (config : DiffSoundsConfig) : List Cmd :=
  if p.diffCloseSoundPath = "" ∨ config.diffCloseSound.enabled = false then []
  else [Cmd.stop "diffactive",
        Cmd.play "diffclose" (effVol config.diffCloseSound.volume 100 config.volume) false]

/-! ## The orchestrator in `extension.ts` -/

/-- The unified 2000 ms UI-interaction suppression window. -/
def UI_SUPPRESSION_MS : Nat := 2000

/-- Direction of a debounced edit sound. -/
inductive Direction
  | addDir
  | removeDir
deriving DecidableEq, Repr

/-- The single outstanding `setTimeout` handle held in the module-level
`timeout` variable: absolute fire time, direction, and the configuration
captured by the callback's closure. -/
structure PendingTimer where
  fireAt : Nat
  action : Direction
  config : DiffSoundsConfig
deriving DecidableEq, Repr

/-- The module-level mutable state of `extension.ts`. `pendingClears` holds
the absolute times at which scheduled `setTimeout` callbacks will reset
`isDuringConfigChange` to false (one per configuration-change event). -/
structure OrchState where
  timeout : Option PendingTimer := none
  lastConfigChangeTime : Nat := 0
  duringConfigChange : Bool := false
  pendingClears : List Nat := []
  openDiffTabCount : Int := 0
  wasDiffActivePlaying : Bool := false
  isDisabled : Bool := false
  diffOpenCallbacks : List DiffSoundsConfig := []
deriving DecidableEq, Repr

/-- One discrete content change of a document-change notification: length of
the replaced range and length of the inserted text. -/
structure ContentChange where
  rangeLength : Nat
  textLength : Nat
deriving DecidableEq, Repr

/-- A tab descriptor: recognized as a comparison view iff its input carries
both an `original` and a `modified` reference. -/
inductive TabKind
  | diffTab
  | otherTab
deriving DecidableEq, Repr

/-- Host events consumed by the orchestrator. `textChange` carries the
document identity, the (externally determined) result of the
open-comparison-tab membership test, and the discrete changes. -/
inductive Event
  | textChange (documentUri : Option String) (inDiffEditor : Bool) (changes : List ContentChange)
  | tabsChange (closed : List TabKind) (opened : List TabKind)
  | configChange
  | disableCommand
  | enableCommand
  | soundEnded (sound : String)
deriving DecidableEq, Repr

/-- The external world fixed over a trace: what `getVSCodeConfig` returns
and the attribution environment. -/
structure Env where
  config : DiffSoundsConfig
  attribution : AttributionEnv := {}
deriving DecidableEq, Repr

/-- Classification of one content change in the text-change handler:
insertion, deletion, or replacement resolved by net length (equal-length
replacements are ignored). -/
def classifyChange (c : ContentChange) : Option Direction :=
  if c.rangeLength = 0 ∧ 0 < c.textLength then some .addDir
  else if 0 < c.rangeLength ∧ c.textLength = 0 then some .removeDir
  else if 0 < c.rangeLength ∧ 0 < c.textLength then
    if c.rangeLength < c.textLength then some .addDir
    else if c.textLength < c.rangeLength then some .removeDir
    else none
  else none

/-- `debouncedPlay`: clear the (shared, single-slot) pending timer and
schedule a new one at `now + debounceMs` for the given direction, capturing
the configuration read at event time. -/
def scheduleDebounce (t : Nat) (config : DiffSoundsConfig) (dir : Direction)
    (s : OrchState) : OrchState :=
  { s with timeout := some { fireAt := t + config.debounceMs, action := dir, config := config } }

/-- The `onDidChangeTextDocument` handler: disabled check, config-change
suppression window, fresh config read, attribution gate, diff-editor
membership test, then one `debouncedPlay` per classified change. -/
def handleTextChange (env : Env) (t : Nat) (documentUri : Option String)
    (inDiffEditor : Bool) (changes : List ContentChange) (s : OrchState) :
    OrchState × List Cmd :=
  if s.isDisabled then (s, [])
  else if t < s.lastConfigChangeTime + UI_SUPPRESSION_MS then (s, [])
  else
    let config := env.config
    if shouldPlaySound env.attribution config documentUri = false then (s, [])
    else if inDiffEditor = false then (s, [])
    else
      (changes.foldl
        (fun acc c =>
          match classifyChange c with
          | some dir => scheduleDebounce t config dir acc
          | none => acc) s, [])

/-- Body of the `closed` loop of the tab-change handler for one tab. -/
def handleClosedTab (p : Paths) (config : DiffSoundsConfig)
    (acc : OrchState × List Cmd) (tab : TabKind) : OrchState × List Cmd :=
  match tab with
  | .otherTab => acc
  | .diffTab =>
    let (s, cmds) := acc
    if s.duringConfigChange then (s, cmds)
    else
      let s' := { s with openDiffTabCount := s.openDiffTabCount - 1 }
      if s'.openDiffTabCount = 0 ∧ config.diffCloseSound.enabled then
        (s', cmds ++ playDiffClose p config)
      else (s', cmds)

/-- Body of the `opened` loop of the tab-change handler for one tab: count
the tab, then either play the open cue (registering a completion callback
that will start the active loop) or start the active loop immediately. -/
def handleOpenedTab (p : Paths) (config : DiffSoundsConfig)
    (acc : OrchState × List Cmd) (tab : TabKind) : OrchState × List Cmd :=
  match tab with
  | .otherTab => acc
  | .diffTab =>
    let (s, cmds) := acc
    if s.duringConfigChange then (s, cmds)
    else
      let s' := { s with openDiffTabCount := s.openDiffTabCount + 1 }
      if config.diffOpenSound.enabled then
        ({ s' with diffOpenCallbacks := s'.diffOpenCallbacks ++ [config] },
         cmds ++ playDiffOpen p config)
      else if config.diffActiveSound.enabled then
        (s', cmds ++ playDiffActive p config)
      else (s', cmds)

/-- The `onDidChangeTabs` handler: disabled check, fresh config read,
master-enabled check, then the closed loop followed by the opened loop. -/
def handleTabsChange (env : Env) (p : Paths) (closed opened : List TabKind)
    (s : OrchState) : OrchState × List Cmd :=
  if s.isDisabled then (s, [])
  else
    let config := env.config
    if config.enabled = false then (s, [])
    else
      let r := closed.foldl (handleClosedTab p config) (s, [])
      opened.foldl (handleOpenedTab p config) r

/-- The `onDidChangeConfiguration` listeners: record the change time, raise
the suppression flag, and schedule its reset 2000 ms later (`preloadSounds`
posts no play/stop command). -/
def handleConfigChange (t : Nat) (s : OrchState) : OrchState × List Cmd :=
  ({ s with lastConfigChangeTime := t,
            duringConfigChange := true,
            pendingClears := s.pendingClears ++ [t + UI_SUPPRESSION_MS] }, [])

/-- The explicit stop-all issued by the enable and disable commands, in
source order. -/
def stopAllCmds : List Cmd :=
  [Cmd.stop "diffactive", Cmd.stop "add", Cmd.stop "remove",
   Cmd.stop "diffopen", Cmd.stop "diffclose"]

/-- The `diff-sounds.disable` command: set the disabled flag, stop all five
channels, latch whether the active loop was playing. The pending debounce
timer is left untouched. -/
def handleDisable (s : OrchState) : OrchState × List Cmd :=
  ({ s with isDisabled := true,
            wasDiffActivePlaying := decide (0 < s.openDiffTabCount) }, stopAllCmds)

/-- The `diff-sounds.enable` command: clear the disabled flag and defensively
stop all five channels. -/
def handleEnable (s : OrchState) : OrchState × List Cmd :=
  ({ s with isDisabled := false }, stopAllCmds)

/-- One `diffopen` completion callback (registered in the opened loop),
run against the current module state with its captured configuration. -/
def runDiffOpenCallback (p : Paths) (s : OrchState) (config : DiffSoundsConfig) : List Cmd :=
  if 0 < s.openDiffTabCount ∧ config.diffActiveSound.enabled = true ∧
     s.isDisabled = false ∧ config.enabled = true then
    playDiffActive p config
  else []

/-- The `audioEnded` message handler of `DiffSoundPlayer`: run and clear the
completion callbacks registered for the finished sound (only the `diffopen`
role ever has callbacks registered by the orchestrator). -/
def handleSoundEnded (p : Paths) (sound : String) (s : OrchState) : OrchState × List Cmd :=
  if sound = "diffopen" then
    ({ s with diffOpenCallbacks := [] },
     s.diffOpenCallbacks.foldl (fun acc config => acc ++ runDiffOpenCallback p s config) [])
  else (s, [])

/-- Commands emitted by the debounce-timer callback when it runs while the
suppression flag has value `flagAtFire`: the callback drops the play while
`isDuringConfigChange` is set, and otherwise plays its direction's sound if
that role is enabled in the captured configuration. It does not consult the
disabled flag. -/
def fireTimerCmds (p : Paths) (flagAtFire : Bool) (tm : PendingTimer) : List Cmd :=
  if flagAtFire then []
  else
    match tm.action with
    | .addDir => if tm.config.addSound.enabled then playAdd p tm.config else []
    | .removeDir => if tm.config.removeSound.enabled then playRemove p tm.config else []

/-- Advance the single-threaded timeline to time `t`: run every scheduled
callback now due, in fire-time order (suppression resets before a debounce
timer due at the same instant). Due suppression resets lower the flag; a
due debounce timer emits its commands with the flag value it observes. -/
def advance (p : Paths) (t : Nat) (s : OrchState) : OrchState × List Cmd :=
  let clearsLeft := s.pendingClears.filter (fun c => decide (t < c))
  let flagAfter := s.duringConfigChange && !(s.pendingClears.any (fun c => decide (c ≤ t)))
  match s.timeout with
  | none =>
    ({ s with pendingClears := clearsLeft, duringConfigChange := flagAfter }, [])
  | some tm =>
    if tm.fireAt ≤ t then
      let flagAtFire :=
        s.duringConfigChange && !(s.pendingClears.any (fun c => decide (c ≤ tm.fireAt)))
      ({ s with timeout := none, pendingClears := clearsLeft,
                duringConfigChange := flagAfter },
       fireTimerCmds p flagAtFire tm)
    else
      ({ s with pendingClears := clearsLeft, duringConfigChange := flagAfter }, [])

/-- Dispatch one host event to its handler. -/
def handleEvent (env : Env) (p : Paths) (t : Nat) (ev : Event) (s : OrchState) :
    OrchState × List Cmd :=
  match ev with
  | .textChange uri inDiff changes => handleTextChange env t uri inDiff changes s
  | .tabsChange closed opened => handleTabsChange env p closed opened s
  | .configChange => handleConfigChange t s
  | .disableCommand => handleDisable s
  | .enableCommand => handleEnable s
  | .soundEnded sound => handleSoundEnded p sound s

/-- Process one timestamped event: first run the callbacks due by its
arrival time, then the event's handler. -/
def stepAt (env : Env) (p : Paths) (s : OrchState) (tev : Nat × Event) :
    OrchState × List Cmd :=
  let r1 := advance p tev.1 s
  let r2 := handleEvent env p tev.1 tev.2 r1.1
  (r2.1, r1.2 ++ r2.2)

/-- Run a timestamped event trace (times nondecreasing along the trace),
collecting all emitted commands in order. -/
def run (env : Env) (p : Paths) : OrchState → List (Nat × Event) → OrchState × List Cmd
  | s, [] => (s, [])
  | s, tev :: rest =>
    let r1 := stepAt env p s tev
    let r2 := run env p r1.1 rest
    (r2.1, r1.2 ++ r2.2)

/-- Run a trace and then let the timeline advance to `horizon`, firing any
still-pending callbacks due by then. -/
def runFlush (env : Env) (p : Paths) (s : OrchState) (trace : List (Nat × Event))
    (horizon : Nat) : OrchState × List Cmd :=
  let r1 := run env p s trace
  let r2 := advance p horizon r1.1
  (r2.1, r1.2 ++ r2.2)

/-- The initial module state at activation. -/
def initState : OrchState := {}

/-- Number of `play` commands for a given sound id in a command list. -/
def countPlays (cmds : List Cmd) (sound : String) : Nat :=
  (cmds.filter (fun c =>
    match c with
    | .play s _ _ => s == sound
    | .stop _ => false)).length

/-- An event is a document-change or tab-change notification. -/
def isEditOrTabEvent : Event → Bool
  | .textChange _ _ _ => true
  | .tabsChange _ _ => true
  | _ => false

/-- A burst of single-insertion document-change notifications, one per
(timestamp, inserted-text length) pair. -/
def insertionTrace (uri : Option String) (tls : List (Nat × Nat)) : List (Nat × Event) :=
  tls.map (fun tl => (tl.1, Event.textChange uri true [⟨0, tl.2⟩]))

/-- Effective volume as the spec's claim words it: the role volume falls
back to the master volume exactly when the override is absent, and the
result is `(role ÷ 100) × (master ÷ 100)`. Stated for comparison with
`effVol`, which embeds the source computation. -/
def claimEffVol (roleVol : Option Nat) (master : Nat) : Rat :=
  ((roleVol.getD master : Rat) / 100) * ((master : Rat) / 100)

/-- Effective volume as the code actually computes it, written out plainly:
a role volume that is absent **or zero** falls back to the role's hardcoded
default, and a master volume of zero falls back to 100. -/
def amendedEffVol (roleVol : Option Nat) (roleDefault master : Nat) : Rat :=
  ((match roleVol with
    | some n => if n = 0 then (roleDefault : Rat) else (n : Rat)
    | none => (roleDefault : Rat)) / 100) *
  ((if master = 0 then (100 : Rat) else (master : Rat)) / 100)

/-! ## Concrete example inputs used by counterexamples and witnesses -/

/-- A fully enabled configuration with the shipped default volumes and a
100 ms debounce interval. -/
def exampleConfig : DiffSoundsConfig :=
  { enabled := true, attributionMode := .anyMode, authorName := "Cline",
    addSound := { enabled := true, volume := some 50 },
    removeSound := { enabled := true, volume := some 50 },
    diffOpenSound := { enabled := true, volume := some 100 },
    diffActiveSound := { enabled := true, volume := some 100 },
    diffCloseSound := { enabled := true, volume := some 100 },
    volume := 100, debounceMs := 100 }

/-- Player state with every role's file resolved. -/
def examplePaths : Paths :=
  { addSoundPath := "add.wav", removeSoundPath := "remove.wav",
    diffOpenSoundPath := "diffopen.wav", diffActiveSoundPath := "diffactive.wav",
    diffCloseSoundPath := "diffclose.wav" }

/-- Environment pairing `exampleConfig` with an empty attribution
environment (mode `any` never consults it). -/
def exampleEnv : Env := { config := exampleConfig }

/-- `exampleConfig` with a 10-second debounce interval. -/
def bigDebounceConfig : DiffSoundsConfig := { exampleConfig with debounceMs := 10000 }

/-- Environment for `bigDebounceConfig`. -/
def bigDebounceEnv : Env := { config := bigDebounceConfig }

/-- `exampleConfig` with the add role's volume override stored as 0. -/
def zeroAddVolConfig : DiffSoundsConfig :=
  { exampleConfig with addSound := { enabled := true, volume := some 0 } }

/-- `exampleConfig` with no add-role volume override and master volume 80. -/
def noAddVolConfig : DiffSoundsConfig :=
  { exampleConfig with addSound := { enabled := true, volume := none }, volume := 80 }

/-- A state inside the configuration-churn suppression window: the flag is
up and its reset is scheduled for t = 10000. -/
def suppressedState : OrchState :=
  { duringConfigChange := true, pendingClears := [10000] }

/-- A settings store whose `addSound.enabled` key holds `false` while its
`removeSound.enabled` key holds `true`. -/
def exampleStore : SettingsStore :=
  { addSoundEnabled := some false, removeSoundEnabled := some true }

/-! ## Helper lemmas -/

theorem checkGitAttribution_false (env : GitEnv) (uri : Option String) :
    checkGitAttribution env uri = false := by
  cases uri <;> simp [checkGitAttribution]

theorem advance_timeout_none (p : Paths) (t : Nat) (s : OrchState) (h : s.timeout = none) :
    advance p t s =
      ({ s with
          pendingClears := s.pendingClears.filter (fun c => decide (t < c)),
          duringConfigChange :=
            s.duringConfigChange && !(s.pendingClears.any (fun c => decide (c ≤ t))) }, []) := by
  simp [advance, h]

theorem handleTextChange_noPlay (env : Env) (t : Nat) (uri : Option String)
    (inDiff : Bool) (changes : List ContentChange) (s : OrchState)
    (hsp : shouldPlaySound env.attribution env.config uri = false) :
    handleTextChange env t uri inDiff changes s = (s, []) := by
  simp [handleTextChange, hsp]

theorem handleTabsChange_notEnabled (env : Env) (p : Paths) (closed opened : List TabKind)
    (s : OrchState) (h : env.config.enabled = false) :
    handleTabsChange env p closed opened s = (s, []) := by
  simp [handleTabsChange, h]

theorem foldl_closedTab_suppressed (p : Paths) (config : DiffSoundsConfig)
    (l : List TabKind) (s : OrchState) (cmds : List Cmd)
    (hsup : s.duringConfigChange = true) :
    l.foldl (handleClosedTab p config) (s, cmds) = (s, cmds) := by
  induction l with
  | nil => rfl
  | cons tab rest ih => cases tab <;> simp [List.foldl, handleClosedTab, hsup, ih]

theorem foldl_openedTab_suppressed (p : Paths) (config : DiffSoundsConfig)
    (l : List TabKind) (s : OrchState) (cmds : List Cmd)
    (hsup : s.duringConfigChange = true) :
    l.foldl (handleOpenedTab p config) (s, cmds) = (s, cmds) := by
  induction l with
  | nil => rfl
  | cons tab rest ih => cases tab <;> simp [List.foldl, handleOpenedTab, hsup, ih]

theorem amendedEffVol_eq_effVol (roleVol : Option Nat) (roleDefault master : Nat) :
    amendedEffVol roleVol roleDefault master = effVol roleVol roleDefault master := by
  cases roleVol with
  | none => simp [amendedEffVol, effVol, jsOrOpt, jsOrNat, apply_ite (fun n : Nat => (n : Rat))]
  | some n =>
      by_cases hn : n = 0 <;>
        simp [amendedEffVol, effVol, jsOrOpt, jsOrNat, hn, apply_ite (fun n : Nat => (n : Rat))]

/-! ## C9: the remove-sound enabled flag -/

/-- Claim C9: reading the persisted configuration is claimed to yield a
remove-sound enabled flag equal to the stored `removeSound.enabled` value,
independent of `addSound.enabled`. The code instead populates it from a
read of the `addSound.enabled` key: on a store with
`addSound.enabled = false` and `removeSound.enabled = true`, the resulting
remove-sound record is disabled. -/
theorem removeSound_enabled_reads_addSound_key :
    (getVSCodeConfig exampleStore).removeSound.enabled = false ∧
    exampleStore.removeSoundEnabled = some true := by
  constructor <;> rfl

/-! ## C10: the attribution gate -/

/-- Claim C10: `shouldPlaySound` returns false whenever the master enabled flag
is false; with the flag true and mode `any` it returns true regardless of
author name, document, or external environment; and with mode `git-only`
it always returns false (the blame lookup is an unimplemented stub whose
every branch, including its catch handler, yields false). -/
theorem shouldPlaySound_gate (env : AttributionEnv) (config : DiffSoundsConfig)
    (uri : Option String) :
    (config.enabled = false → shouldPlaySound env config uri = false) ∧
    (config.enabled = true → config.attributionMode = .anyMode →
      shouldPlaySound env config uri = true) ∧
    (config.attributionMode = .gitOnly → shouldPlaySound env config uri = false) := by
  refine ⟨fun h => ?_, fun h hm => ?_, fun hm => ?_⟩
  · simp [shouldPlaySound, h]
  · simp [shouldPlaySound, h, hm]
  · cases hen : config.enabled <;>
      simp [shouldPlaySound, hen, hm, checkGitAttribution_false]

/-- Witness for C10 at a concrete configuration, document and environment. -/
theorem shouldPlaySound_gate_witness :
    (exampleConfig.enabled = true ∧ exampleConfig.attributionMode = .anyMode) ∧
    shouldPlaySound {} exampleConfig (some "doc") = true := by
  exact ⟨⟨rfl, rfl⟩, (shouldPlaySound_gate {} exampleConfig (some "doc")).2.1 rfl rfl⟩

/-! ## C7: effective playback volume -/

/-- Claim C7 counterexample: the claim predicts effective volume
`(role ÷ 100) × (master ÷ 100)` with fallback to the master volume when the
override is absent, hence 0 for a stored role volume of 0. The code treats
0 as falsy and falls back to the hardcoded default 50, producing 1/2; with
the override absent and master 80 it again uses 50, not the master volume,
producing 2/5 instead of the claimed 16/25. -/
theorem effective_volume_counterexample :
    playAdd examplePaths zeroAddVolConfig = [Cmd.play "add" (1 / 2 : Rat) false] ∧
    claimEffVol (some 0) 100 = 0 ∧ (1 / 2 : Rat) ≠ 0 ∧
    playAdd examplePaths noAddVolConfig = [Cmd.play "add" (2 / 5 : Rat) false] ∧
    claimEffVol none 80 = 16 / 25 ∧ (2 / 5 : Rat) ≠ 16 / 25 := by
  refine ⟨?_, by norm_num [claimEffVol], by norm_num, ?_, by norm_num [claimEffVol], by norm_num⟩
  · simp [playAdd, examplePaths, zeroAddVolConfig, exampleConfig, effVol, jsOrOpt, jsOrNat]
    norm_num
  · simp [playAdd, examplePaths, noAddVolConfig, exampleConfig, effVol, jsOrOpt, jsOrNat]
    norm_num

/-- Claim C7 amended: the playback volume passed to the backend is
`(r ÷ 100) × (m ÷ 100)` where `r` is the role volume if present and
nonzero and otherwise the role's hardcoded default (50 for the add role,
100 for the active-loop role) — never the master volume — and `m` is the
master volume if nonzero and otherwise 100; a stored volume of 0 therefore
falls back instead of silencing playback. -/
theorem effective_volume_amended (p : Paths) (config : DiffSoundsConfig)
    (haddPath : ¬ p.addSoundPath = "") (haddEn : config.addSound.enabled = true)
    (hactPath : ¬ p.diffActiveSoundPath = "") (hactEn : config.diffActiveSound.enabled = true) :
    playAdd p config =
      [Cmd.play "add" (amendedEffVol config.addSound.volume 50 config.volume) false] ∧
    playDiffActive p config =
      [Cmd.play "diffactive" (amendedEffVol config.diffActiveSound.volume 100 config.volume) true] := by
  rw [amendedEffVol_eq_effVol, amendedEffVol_eq_effVol]
  constructor
  · simp [playAdd, haddPath, haddEn]
  · simp [playDiffActive, hactPath, hactEn]

/-- Witness for C7's amended statement at a concrete player and config. -/
theorem effective_volume_amended_witness :
    (¬ examplePaths.addSoundPath = "" ∧ zeroAddVolConfig.addSound.enabled = true ∧
     ¬ examplePaths.diffActiveSoundPath = "" ∧ zeroAddVolConfig.diffActiveSound.enabled = true) ∧
    playAdd examplePaths zeroAddVolConfig =
      [Cmd.play "add" (amendedEffVol (some 0) 50 100) false] := by
  refine ⟨⟨by decide, rfl, by decide, rfl⟩, ?_⟩
  exact (effective_volume_amended examplePaths zeroAddVolConfig
    (by decide) rfl (by decide) rfl).1

/-! ## C3: the open-comparison-view counter -/

/-- Claim C3 counterexample: the counter is claimed to stay nonnegative because a
close event only decrements it when it is above zero. Starting from the
initial state (counter 0), a single recognized tab-close event processed
normally drives the counter to −1. -/
theorem open_count_goes_negative :
    (stepAt exampleEnv examplePaths initState
      (3000, .tabsChange [.diffTab] [])).1.openDiffTabCount = -1 := by
  decide

/-- Claim C3 amended: outside disablement and the churn-suppression window, a
recognized tab-close event decrements the counter unconditionally — there
is no above-zero guard — so the counter can become negative. -/
theorem close_decrements_unconditionally (env : Env) (p : Paths) (s : OrchState)
    (hdis : s.isDisabled = false) (hen : env.config.enabled = true)
    (hsup : s.duringConfigChange = false) :
    (handleTabsChange env p [.diffTab] [] s).1.openDiffTabCount =
      s.openDiffTabCount - 1 := by
  simp only [handleTabsChange, hdis, hen, List.foldl, handleClosedTab, hsup]
  norm_num
  split <;> rfl

/-- Witness for C3's amended statement at a concrete state with counter 0. -/
theorem close_decrements_unconditionally_witness :
    (initState.isDisabled = false ∧ exampleEnv.config.enabled = true ∧
     initState.duringConfigChange = false) ∧
    (handleTabsChange exampleEnv examplePaths [.diffTab] [] initState).1.openDiffTabCount =
      initState.openDiffTabCount - 1 := by
  exact ⟨⟨rfl, rfl, rfl⟩,
    close_decrements_unconditionally exampleEnv examplePaths initState rfl rfl rfl⟩

/-! ## C4: tab events during configuration churn -/

/-- Claim C4 counterexample: during the Suppressing state, a recognized tab-open
event is claimed to still increment the counter (and a close to decrement
it). Processing a tab notification with one recognized open and one
recognized close from a suppressed state with counter 0 leaves the counter
at 0 and registers no callback: lifecycle tracking does not continue. -/
theorem suppression_skips_tab_counting :
    (stepAt exampleEnv examplePaths suppressedState
      (3000, .tabsChange [.diffTab] [.diffTab])).1.openDiffTabCount = 0 ∧
    (stepAt exampleEnv examplePaths suppressedState
      (3000, .tabsChange [.diffTab] [.diffTab])).2 = [] := by
  constructor <;> decide

/-- Claim C4 amended: while the configuration-churn suppression flag is up, the
tab-change handler skips every recognized tab open/close entirely: the
counter is untouched, no completion callback is registered, and no play or
stop command is emitted. -/
theorem suppression_skips_tab_events (env : Env) (p : Paths)
    (closed opened : List TabKind) (s : OrchState)
    (hsup : s.duringConfigChange = true) :
    handleTabsChange env p closed opened s = (s, []) := by
  unfold handleTabsChange
  split
  · rfl
  · simp only [foldl_closedTab_suppressed p env.config closed s [] hsup,
      foldl_openedTab_suppressed p env.config opened s [] hsup, ite_self]

/-- Witness for C4's amended statement at a concrete suppressed state. -/
theorem suppression_skips_tab_events_witness :
    suppressedState.duringConfigChange = true ∧
    handleTabsChange exampleEnv examplePaths [.diffTab] [.diffTab] suppressedState =
      (suppressedState, []) := by
  exact ⟨rfl,
    suppression_skips_tab_events exampleEnv examplePaths [.diffTab] [.diffTab]
      suppressedState rfl⟩

/-! ## C5: the debounce timer across disablement -/

/-- Claim C5 counterexample: the claim says the fire-time check detects the
disabled state, so no add/remove sound is ever played by a timer scheduled
before disablement. With a 10-second debounce: an insertion schedules the
timer, the disable command runs, the configuration-change notification
caused by disabling raises the 2000 ms suppression flag — and when the
timeline passes the timer's fire time (after the cooldown has self-cleared)
the callback still plays the add sound, with the extension disabled. -/
theorem stale_timer_plays_after_disable :
    (runFlush bigDebounceEnv examplePaths initState
      [(3000, .textChange (some "doc") true [⟨0, 1⟩]),
       (3001, .disableCommand),
       (3002, .configChange)] 20000).1.isDisabled = true ∧
    countPlays (runFlush bigDebounceEnv examplePaths initState
      [(3000, .textChange (some "doc") true [⟨0, 1⟩]),
       (3001, .disableCommand),
       (3002, .configChange)] 20000).2 "add" = 1 := by
  constructor <;> decide

/-- Claim C5 amended: the disable command leaves the pending debounce timer in
place, and the timer's fire-time check consults only the
configuration-churn suppression flag, never the disabled flag: firing with
the flag up is a no-op, while the commands emitted by advancing the
timeline are identical whether or not the extension is disabled. (Disabling
rewrites the persisted configuration, so the resulting change notification
suppresses timers that fire within the 2000 ms cooldown — but a timer
firing later still plays.) -/
theorem fire_check_ignores_disabled (s : OrchState) (p : Paths) (t : Nat)
    (tm : PendingTimer) :
    (handleDisable s).1.timeout = s.timeout ∧
    fireTimerCmds p true tm = [] ∧
    (advance p t { s with isDisabled := true }).2 = (advance p t s).2 := by
  refine ⟨rfl, rfl, ?_⟩
  cases h : s.timeout with
  | none => simp [advance, h]
  | some tm' =>
      simp only [advance, h]
      split <;> rfl

/-! ## Further helper lemmas for trace reasoning -/

theorem edit_step (env : Env) (p : Paths) (s : OrchState) (t : Nat)
    (uri : Option String) (c : ContentChange) (dir : Direction)
    (hc : classifyChange c = some dir)
    (hdis : s.isDisabled = false)
    (hflag : s.duringConfigChange = false)
    (hclears : s.pendingClears = [])
    (hwin : s.lastConfigChangeTime + UI_SUPPRESSION_MS ≤ t)
    (hsp : shouldPlaySound env.attribution env.config uri = true)
    (hto : ∀ tm, s.timeout = some tm → t < tm.fireAt) :
    stepAt env p s (t, .textChange uri true [c]) =
      ({ s with timeout := some ⟨t + env.config.debounceMs, dir, env.config⟩ }, []) := by
  obtain ⟨tmo, last, dur, clears, cnt, was, dis, cbs⟩ := s
  simp only at hdis hflag hclears hto hwin
  subst hdis hflag hclears
  have hnotsup : ¬ (t < last + UI_SUPPRESSION_MS) := by omega
  have hadv : advance p t ⟨tmo, last, false, [], cnt, was, false, cbs⟩ =
      (⟨tmo, last, false, [], cnt, was, false, cbs⟩, []) := by
    cases tmo with
    | none => simp [advance]
    | some tm =>
        have hf := hto tm rfl
        simp [advance, Nat.not_le.mpr hf]
  simp [stepAt, hadv, handleEvent, handleTextChange, hnotsup, hsp, hc, scheduleDebounce]

theorem stepAt_disabled_config (env : Env) (p : Paths) (s : OrchState) (tev : Nat × Event)
    (hcfg : env.config.enabled = false) (hto : s.timeout = none)
    (hev : isEditOrTabEvent tev.2 = true) :
    (stepAt env p s tev).2 = [] ∧ (stepAt env p s tev).1.timeout = none := by
  obtain ⟨t, ev⟩ := tev
  cases ev with
  | textChange uri inDiff changes =>
      have hsp : shouldPlaySound env.attribution env.config uri = false := by
        simp [shouldPlaySound, hcfg]
      simp [stepAt, advance_timeout_none p t s hto, handleEvent,
            handleTextChange_noPlay _ _ _ _ _ _ hsp, hto]
  | tabsChange closed opened =>
      simp [stepAt, advance_timeout_none p t s hto, handleEvent,
            handleTabsChange_notEnabled _ _ _ _ _ hcfg, hto]
  | configChange => simp [isEditOrTabEvent] at hev
  | disableCommand => simp [isEditOrTabEvent] at hev
  | enableCommand => simp [isEditOrTabEvent] at hev
  | soundEnded sound => simp [isEditOrTabEvent] at hev

theorem burst_aux (env : Env) (p : Paths) (uri : Option String)
    (hsp : shouldPlaySound env.attribution env.config uri = true) :
    ∀ (tls : List (Nat × Nat)) (s : OrchState) (prev : Nat),
    s.timeout = some ⟨prev + env.config.debounceMs, .addDir, env.config⟩ →
    s.isDisabled = false → s.duringConfigChange = false → s.pendingClears = [] →
    (∀ x ∈ tls, s.lastConfigChangeTime + UI_SUPPRESSION_MS ≤ x.1 ∧ prev ≤ x.1 ∧
       x.1 < prev + env.config.debounceMs ∧ 0 < x.2) →
    List.Pairwise (fun a b => a.1 ≤ b.1) tls →
    run env p s (insertionTrace uri tls) =
      ({ s with timeout := some ⟨(tls.foldl (fun _ x => x.1) prev) + env.config.debounceMs,
                                 .addDir, env.config⟩ }, []) := by
  intro tls
  induction tls with
  | nil =>
      intro s prev h1 _ _ _ _ _
      obtain ⟨tmo, last, dur, clears, cnt, was, dis, cbs⟩ := s
      simp only at h1
      subst h1
      simp [insertionTrace, run]
  | cons x rest ih =>
      intro s prev h1 hdis hflag hclears hmem hpair
      obtain ⟨tmo, last, dur, clears, cnt, was, dis, cbs⟩ := s
      simp only at h1 hdis hflag hclears hmem
      subst h1 hdis hflag hclears
      obtain ⟨hx, hrest⟩ := List.forall_mem_cons.mp hmem
      have hstep := edit_step env p
        ⟨some ⟨prev + env.config.debounceMs, .addDir, env.config⟩, last, false, [], cnt, was, false, cbs⟩
        x.1 uri ⟨0, x.2⟩ .addDir (by simp [classifyChange, hx.2.2.2]) rfl rfl rfl hx.1 hsp
        (fun tm h => by injection h with hh; subst hh; exact hx.2.2.1)
      rw [List.pairwise_cons] at hpair
      have hih := ih
        ⟨some ⟨x.1 + env.config.debounceMs, .addDir, env.config⟩, last, false, [], cnt, was, false, cbs⟩
        x.1 rfl rfl rfl rfl
        (fun y hy => ⟨(hrest y hy).1, hpair.1 y hy,
          by have hy1 := (hrest y hy).2.2.1; have hy2 := hx.2.1; omega,
          (hrest y hy).2.2.2⟩)
        hpair.2
      simp only [insertionTrace, List.map] at hih ⊢
      simp only [run, hstep, hih, List.foldl]
      simp

/-! ## C1: opposite-direction independence of the debounce -/

/-- Claim C1 counterexample: an insertion at t = 3000 followed by a
deletion at t = 3010, both inside the 100 ms debounce window, are claimed
to yield one "add" play and one "remove" play. Because `timeout` is a
single shared slot, scheduling the remove clears the pending add timer:
the run yields zero "add" plays and one "remove" play. -/
theorem add_then_remove_counterexample :
    countPlays (runFlush exampleEnv examplePaths initState
      [(3000, .textChange (some "doc") true [⟨0, 1⟩]),
       (3010, .textChange (some "doc") true [⟨1, 0⟩])] 10000).2 "add" = 0 ∧
    countPlays (runFlush exampleEnv examplePaths initState
      [(3000, .textChange (some "doc") true [⟨0, 1⟩]),
       (3010, .textChange (some "doc") true [⟨1, 0⟩])] 10000).2 "remove" = 1 := by
  constructor <;> decide

/-- Claim C1 amended: the two directions share one single-slot debounce
timer, not independent ones. For an insertion followed within the debounce
window by a deletion (with attribution passing, no suppression or
disablement, remove role playable), the deletion's scheduling cancels the
pending add timer, so the burst yields exactly one "remove" play and no
"add" play. -/
theorem add_then_remove_shared_timer (env : Env) (p : Paths) (s : OrchState)
    (uri : Option String) (t1 t2 horizon l1 r2 : Nat)
    (hl1 : 0 < l1) (hr2 : 0 < r2)
    (hdis : s.isDisabled = false) (hflag : s.duringConfigChange = false)
    (hclears : s.pendingClears = []) (hto : s.timeout = none)
    (hwin1 : s.lastConfigChangeTime + UI_SUPPRESSION_MS ≤ t1)
    (h12 : t1 ≤ t2) (hwin2 : t2 < t1 + env.config.debounceMs)
    (hsp : shouldPlaySound env.attribution env.config uri = true)
    (hremEn : env.config.removeSound.enabled = true)
    (hremPath : ¬ p.removeSoundPath = "")
    (hhor : t2 + env.config.debounceMs ≤ horizon) :
    runFlush env p s
        [(t1, .textChange uri true [⟨0, l1⟩]), (t2, .textChange uri true [⟨r2, 0⟩])]
        horizon =
      (s, [Cmd.play "remove" (effVol env.config.removeSound.volume 50 env.config.volume) false]) := by
  obtain ⟨tmo, last, dur, clears, cnt, was, dis, cbs⟩ := s
  simp only at hdis hflag hclears hto hwin1
  subst hdis hflag hclears hto
  have h1 := edit_step env p ⟨none, last, false, [], cnt, was, false, cbs⟩ t1 uri ⟨0, l1⟩
    .addDir (by simp [classifyChange, hl1]) rfl rfl rfl hwin1 hsp
    (fun tm h => by simp at h)
  have hwin1' : last + UI_SUPPRESSION_MS ≤ t2 := by omega
  have h2 := edit_step env p
    ⟨some ⟨t1 + env.config.debounceMs, .addDir, env.config⟩, last, false, [], cnt, was, false, cbs⟩
    t2 uri ⟨r2, 0⟩ .removeDir (by simp [classifyChange, hr2, Nat.pos_iff_ne_zero.mp hr2]) rfl rfl rfl
    hwin1' hsp (fun tm h => by injection h with hx; subst hx; exact hwin2)
  simp only [runFlush, run, h1, h2]
  simp [advance, hhor, fireTimerCmds, hremEn, playRemove, hremPath]

/-- Witness for C1's amended statement at concrete times and lengths. -/
theorem add_then_remove_shared_timer_witness :
    (0 < 1 ∧ 3010 < 3000 + exampleEnv.config.debounceMs) ∧
    runFlush exampleEnv examplePaths initState
        [(3000, .textChange (some "doc") true [⟨0, 1⟩]),
         (3010, .textChange (some "doc") true [⟨1, 0⟩])] 10000 =
      (initState, [Cmd.play "remove"
        (effVol exampleEnv.config.removeSound.volume 50 exampleEnv.config.volume) false]) := by
  refine ⟨⟨by decide, by decide⟩, ?_⟩
  exact add_then_remove_shared_timer exampleEnv examplePaths initState (some "doc")
    3000 3010 10000 1 1 (by decide) (by decide) rfl rfl rfl rfl (by decide) (by decide)
    (by decide) rfl rfl (by decide) (by decide)

/-! ## C2: a disabled configuration produces no commands -/

/-- Claim C2: under a configuration with the master enabled flag false,
any sequence of document-change and tab-change events (with no debounce
timer pending from an earlier configuration) produces no play or stop
command on any channel; the only stop commands associated with disabling
are the explicit stop-all of all five channels issued by the disable
command itself. -/
theorem disabled_config_silent (env : Env) (p : Paths) (s : OrchState)
    (trace : List (Nat × Event))
    (hcfg : env.config.enabled = false) (hto : s.timeout = none)
    (htrace : ∀ tev ∈ trace, isEditOrTabEvent tev.2 = true) :
    (run env p s trace).2 = [] ∧
    (handleDisable s).2 =
      [Cmd.stop "diffactive", Cmd.stop "add", Cmd.stop "remove",
       Cmd.stop "diffopen", Cmd.stop "diffclose"] := by
  refine ⟨?_, rfl⟩
  have main : ∀ (tr : List (Nat × Event)) (s1 : OrchState), s1.timeout = none →
      (∀ tev ∈ tr, isEditOrTabEvent tev.2 = true) → (run env p s1 tr).2 = [] := by
    intro tr
    induction tr with
    | nil => intro s1 _ _; simp [run]
    | cons tev rest ih =>
        intro s1 hto1 htr
        have h1 := stepAt_disabled_config env p s1 tev hcfg hto1 (htr tev (by simp))
        have h2 := ih (stepAt env p s1 tev).1 h1.2
          (fun x hx => htr x (List.mem_cons_of_mem _ hx))
        simp [run, h1.1, h2]
  exact main trace s hto htrace

/-- Witness for C2 on a concrete disabled configuration and a concrete
edit-and-tab trace. -/
theorem disabled_config_silent_witness :
    ({ config := { exampleConfig with enabled := false } } : Env).config.enabled = false ∧
    (run { config := { exampleConfig with enabled := false } } examplePaths initState
      [(3000, .textChange (some "doc") true [⟨0, 1⟩]),
       (3001, .tabsChange [.diffTab] [.diffTab])]).2 = [] := by
  refine ⟨rfl, ?_⟩
  exact (disabled_config_silent { config := { exampleConfig with enabled := false } }
    examplePaths initState
    [(3000, .textChange (some "doc") true [⟨0, 1⟩]),
     (3001, .tabsChange [.diffTab] [.diffTab])] rfl rfl (by decide)).1

/-! ## C6: debounce collapsing of an insertion burst -/

/-- Claim C6: for debounce interval D, a burst of N ≥ 1 insertions into
the same document, all arriving within a window shorter than D (attribution
passing, add role enabled and playable, no suppression or disablement),
emits nothing while the burst is processed, leaves exactly one pending
timer set to fire at the last insertion's timestamp plus D, and flushing
the timeline past that instant issues exactly one "add" play. -/
theorem debounce_collapses_burst (env : Env) (p : Paths) (s : OrchState)
    (uri : Option String) (t1 len1 horizon : Nat) (rest : List (Nat × Nat))
    (haddEn : env.config.addSound.enabled = true)
    (haddPath : ¬ p.addSoundPath = "")
    (hsp : shouldPlaySound env.attribution env.config uri = true)
    (hto : s.timeout = none) (hdis : s.isDisabled = false)
    (hflag : s.duringConfigChange = false) (hclears : s.pendingClears = [])
    (ht1 : s.lastConfigChangeTime + UI_SUPPRESSION_MS ≤ t1) (hlen1 : 0 < len1)
    (hmem : ∀ x ∈ rest, t1 ≤ x.1 ∧ x.1 < t1 + env.config.debounceMs ∧ 0 < x.2)
    (hpair : List.Pairwise (fun a b => a.1 ≤ b.1) rest)
    (hhor : (rest.foldl (fun _ x => x.1) t1) + env.config.debounceMs ≤ horizon) :
    (run env p s (insertionTrace uri ((t1, len1) :: rest))).2 = [] ∧
    (run env p s (insertionTrace uri ((t1, len1) :: rest))).1.timeout =
      some ⟨(rest.foldl (fun _ x => x.1) t1) + env.config.debounceMs, .addDir, env.config⟩ ∧
    runFlush env p s (insertionTrace uri ((t1, len1) :: rest)) horizon =
      (s, [Cmd.play "add" (effVol env.config.addSound.volume 50 env.config.volume) false]) := by
  obtain ⟨tmo, last, dur, clears, cnt, was, dis, cbs⟩ := s
  simp only at hto hdis hflag hclears ht1
  subst hto hdis hflag hclears
  have hstep1 := edit_step env p ⟨none, last, false, [], cnt, was, false, cbs⟩ t1 uri
    ⟨0, len1⟩ .addDir (by simp [classifyChange, hlen1]) rfl rfl rfl ht1 hsp
    (fun tm h => by simp at h)
  have hrun := burst_aux env p uri hsp rest
    ⟨some ⟨t1 + env.config.debounceMs, .addDir, env.config⟩, last, false, [], cnt, was, false, cbs⟩
    t1 rfl rfl rfl rfl
    (fun y hy => ⟨by show last + UI_SUPPRESSION_MS ≤ y.1; have := (hmem y hy).1; omega,
      (hmem y hy).1, (hmem y hy).2.1, (hmem y hy).2.2⟩)
    hpair
  simp only [insertionTrace, List.map] at hrun ⊢
  simp only [runFlush, run, hstep1, hrun, List.foldl]
  refine ⟨by simp, by simp, ?_⟩
  simp [advance, hhor, fireTimerCmds, haddEn, playAdd, haddPath]

/-- Witness for C6 on a concrete two-insertion burst. -/
theorem debounce_collapses_burst_witness :
    (0 < 1 ∧ (∀ x ∈ [((3010 : Nat), (2 : Nat))],
        3000 ≤ x.1 ∧ x.1 < 3000 + exampleEnv.config.debounceMs ∧ 0 < x.2)) ∧
    runFlush exampleEnv examplePaths initState
        (insertionTrace (some "doc") [(3000, 1), (3010, 2)]) 99999 =
      (initState, [Cmd.play "add"
        (effVol exampleEnv.config.addSound.volume 50 exampleEnv.config.volume) false]) := by
  refine ⟨⟨by decide, by decide⟩, ?_⟩
  exact (debounce_collapses_burst exampleEnv examplePaths initState (some "doc") 3000 1 99999
    [(3010, 2)] rfl (by decide) rfl rfl rfl rfl rfl (by decide) (by decide) (by decide)
    (by decide) (by decide)).2.2

/-! ## C8: lifecycle transition sequencing -/

/-- Claim C8: with the open, active and close cues enabled and playable,
(a) a recognized tab-open taking the counter 0 → 1 emits exactly the
open-cue play and registers a completion callback — no "diffactive" play is
issued at the tab-open event itself; (b) when the open cue's one-shot
playback completes, the registered callback starts the active loop; (c) a
recognized tab-close taking the counter 1 → 0 emits an active-loop stop
followed by the close-cue play, in that order. -/
theorem lifecycle_transition_sequencing (env : Env) (p : Paths)
    (hen : env.config.enabled = true)
    (hopenEn : env.config.diffOpenSound.enabled = true)
    (hactEn : env.config.diffActiveSound.enabled = true)
    (hcloseEn : env.config.diffCloseSound.enabled = true)
    (hopenPath : ¬ p.diffOpenSoundPath = "")
    (hactPath : ¬ p.diffActiveSoundPath = "")
    (hclosePath : ¬ p.diffCloseSoundPath = "") :
    (∀ s : OrchState, s.isDisabled = false → s.duringConfigChange = false →
      s.openDiffTabCount = 0 →
      handleTabsChange env p [] [.diffTab] s =
        ({ s with openDiffTabCount := 1,
                  diffOpenCallbacks := s.diffOpenCallbacks ++ [env.config] },
         [Cmd.play "diffopen" (effVol env.config.diffOpenSound.volume 50 env.config.volume) false])) ∧
    (∀ s : OrchState, s.isDisabled = false → 0 < s.openDiffTabCount →
      s.diffOpenCallbacks = [env.config] →
      handleSoundEnded p "diffopen" s =
        ({ s with diffOpenCallbacks := [] },
         [Cmd.play "diffactive" (effVol env.config.diffActiveSound.volume 100 env.config.volume) true])) ∧
    (∀ s : OrchState, s.isDisabled = false → s.duringConfigChange = false →
      s.openDiffTabCount = 1 →
      handleTabsChange env p [.diffTab] [] s =
        ({ s with openDiffTabCount := 0 },
         [Cmd.stop "diffactive",
          Cmd.play "diffclose" (effVol env.config.diffCloseSound.volume 100 env.config.volume) false])) := by
  refine ⟨?_, ?_, ?_⟩
  · intro s hdis hflag hcount
    obtain ⟨tmo, last, dur, clears, cnt, was, dis, cbs⟩ := s
    simp only at hdis hflag hcount
    subst hdis hflag hcount
    simp [handleTabsChange, hen, handleOpenedTab, hopenEn, playDiffOpen, hopenPath]
  · intro s hdis hcount hcbs
    obtain ⟨tmo, last, dur, clears, cnt, was, dis, cbs⟩ := s
    simp only at hdis hcount hcbs
    subst hdis hcbs
    simp [handleSoundEnded, runDiffOpenCallback, hcount, hactEn, hen, playDiffActive, hactPath]
  · intro s hdis hflag hcount
    obtain ⟨tmo, last, dur, clears, cnt, was, dis, cbs⟩ := s
    simp only at hdis hflag hcount
    subst hdis hflag hcount
    simp [handleTabsChange, hen, handleClosedTab, hcloseEn, playDiffClose, hclosePath]

/-- Witness for C8 at the initial state with every cue enabled. -/
theorem lifecycle_transition_sequencing_witness :
    (exampleEnv.config.enabled = true ∧ initState.openDiffTabCount = 0) ∧
    handleTabsChange exampleEnv examplePaths [] [.diffTab] initState =
      ({ initState with openDiffTabCount := 1,
                        diffOpenCallbacks := initState.diffOpenCallbacks ++ [exampleEnv.config] },
       [Cmd.play "diffopen"
         (effVol exampleEnv.config.diffOpenSound.volume 50 exampleEnv.config.volume) false]) := by
  refine ⟨⟨rfl, rfl⟩, ?_⟩
  exact (lifecycle_transition_sequencing exampleEnv examplePaths rfl rfl rfl rfl
    (by decide) (by decide) (by decide)).1 initState rfl rfl rfl

end DiffSounds
